import Mathlib

/-!
Verification of the gemilot pipeline (gemilot.py): prompt construction,
model-client retry loop, response sanitizer, script runner and the two
front-end turn functions, shallowly embedded in Lean.

Python strings are modelled as Lean `String` with operations carried out on
`String.toList` (Python `str` is a sequence of characters, so slicing,
`startswith`, `strip`, `split` and `lower` are character-level operations;
we restrict `strip` and `lower` to their ASCII behaviour, which covers every
string the program manipulates).
-/

namespace Gemilot

/-- ASCII whitespace recognised by Python `str.strip()`. -/
def isPySpace (c : Char) : Bool :=
  c = ' ' || c = '\t' || c = '\n' || c = '\r' || c = '\x0b' || c = '\x0c'

/-- Python `str.strip()` on a character list: drop leading and trailing
whitespace. -/
def pyStripL (cs : List Char) : List Char :=
  ((cs.dropWhile isPySpace).reverse.dropWhile isPySpace).reverse

/-- Python `str.strip()`. -/
def pyStrip (s : String) : String :=
  String.mk (pyStripL s.toList)

/-- Python `str.lower()` (ASCII). -/
def pyLower (s : String) : String :=
  String.mk (s.toList.map Char.toLower)

/-- Python `text.split(chr(10))` on a character list: always returns at least
one (possibly empty) line. -/
def splitNlL : List Char → List (List Char)
  | [] => [[]]
  | c :: rest =>
    if c = '\n' then [] :: splitNlL rest
    else
      match splitNlL rest with
      | [] => [[c]]
      | l :: ls => (c :: l) :: ls

/-- Python `(chr(10)).join(lines)` on character lists. -/
def joinNlL : List (List Char) → List Char
  | [] => []
  | [l] => l
  | l :: l2 :: ls => l ++ '\n' :: joinNlL (l2 :: ls)

/-- Python `text.split(chr(10))`. -/
def pySplitNl (s : String) : List String :=
  (splitNlL s.toList).map String.mk

/-- The backquote character (code 96). -/
def backquote : Char := Char.ofNat 96

/-- A Markdown code-fence marker: three backquotes. -/
def fence : List Char := [backquote, backquote, backquote]

/-- `line.startswith(3 backquotes)` on a character list. -/
def startsWithFence (l : List Char) : Bool :=
  fence.isPrefixOf l

/-- The fence-dropping step of `GemilotGUI.clean_gemini_response`
(src lines 445-449): when there are at least two lines, drop a leading line
starting with a fence marker and then a trailing line that strips to
exactly a fence marker. -/
def dropFences (lines : List (List Char)) : List (List Char) :=
  if 2 ≤ lines.length then
    let lines := if startsWithFence (lines.headD []) then lines.tail else lines
    if pyStripL (lines.getLastD []) = fence then lines.dropLast else lines
  else lines

/-- `GemilotGUI.clean_gemini_response` (src lines 441-451), on character
lists. -/
def cleanL (cs : List Char) : List Char :=
  joinNlL (dropFences (splitNlL (pyStripL cs)))

/-- `GemilotGUI.clean_gemini_response` (src lines 441-451). -/
def clean_gemini_response (response : String) : String :=
  String.mk (cleanL response.toList)

/-! ### Script Runner -/

/-- Outcome of the interpreter invocation (`subprocess.Popen` +
`communicate`): either the interpreter ran, producing captured stdout,
stderr and an exit code (which the program never reads), or the invocation
itself raised an exception. -/
inductive InterpRun where
  | ran (stdout stderr : String) (exitCode : Int)
  | popenRaises (msg : String)

/-- File-system state for the single shared temporary file
`temp_commands.bat`: `some content` when it is present on disk, `none` when
absent. -/
abbrev TempFile := Option String

/-- `if os.path.exists(TEMP): os.remove(TEMP)`. -/
def removeIfExists : TempFile → TempFile
  | some _ => none
  | none => none

/-- Python `sep.join(parts)`. -/
def pyJoin (sep : String) : List String → String
  | [] => ""
  | [p] => p
  | p :: p2 :: ps => p ++ sep ++ pyJoin sep (p2 :: ps)

/-- The batch-script body built by `execute_commands` and
`create_batch_file` (src lines 455-460 / 518-523): filter the command lines
to stripped non-blank entries and join them after the disable-echo preamble.
(The `newline` translation of the file handle is a presentation detail of
the on-disk byte stream and is not modelled.) -/
def batchContent (commands : List String) : String :=
  let commands := (commands.map pyStrip).filter (fun c => c ≠ "")
  "@echo off\r\n" ++ pyJoin "\r\n" commands

/-- `GemilotGUI.execute_commands` (src lines 453-488): write the batch file,
invoke the interpreter, remove the file, raise iff stderr is non-empty.
Both the inner `raise Exception(stderr)` and a `Popen` failure land in the
outer `except`, which removes the file if present and re-raises
`Exception(str(e))`. The write itself is modelled as succeeding. -/
def execute_commands (commands : List String) (run : InterpRun) (_fs : TempFile) :
    Except String Unit × TempFile :=
  let fs := some (batchContent commands)
  match run with
  | .popenRaises msg => (Except.error msg, removeIfExists fs)
  | .ran _stdout stderr _code =>
    let fs := removeIfExists fs
    if stderr ≠ "" then (Except.error stderr, removeIfExists fs)
    else (Except.ok (), fs)

/-- `GemilotCLI.create_batch_file` (src lines 515-530): write the batch
file.  Its `try/except` only wraps the write, which is modelled as
succeeding; the function returns the new file-system state. -/
def create_batch_file (commands : List String) (_fs : TempFile) : TempFile :=
  some (batchContent commands)

/-- `GemilotCLI.execute_batch_file` (src lines 532-566): invoke the
interpreter against the already-written file, remove the file, return
captured stdout, raising `Exception(stderr)` iff stderr is non-empty; every
exception is caught by the outer handler which removes the file if present
and re-raises with the `Error executing batch file:` wrapper. -/
def execute_batch_file (fs : TempFile) (run : InterpRun) :
    Except String String × TempFile :=
  match run with
  | .popenRaises msg =>
    (Except.error ("Error executing batch file: " ++ msg), removeIfExists fs)
  | .ran stdout stderr _code =>
    let fs := removeIfExists fs
    if stderr ≠ "" then
      (Except.error ("Error executing batch file: " ++ stderr), removeIfExists fs)
    else (Except.ok stdout, fs)

/-- `GemilotCLI.execute_local_command` (src lines 725-767). It writes
`temp_commands.bat` with the disable-echo preamble followed by the stripped
command, then evaluates `self.output_area.append(...)` (src line 736).
`GemilotCLI.__init__` (src lines 510-513) sets only `console`,
`command_history` and `start_time`, and no method of `GemilotCLI` ever
assigns an `output_area` attribute, so this lookup raises `AttributeError`
unconditionally — before `subprocess.Popen` is reached and before any
cleanup.  The `except` handler (src lines 765-767) again reads
`self.output_area`, raising the same `AttributeError`, and contains no file
cleanup, so the exception escapes with the temporary file still on disk.
The function therefore returns the raised message together with the
file-system state it leaves behind. -/
def execute_local_command (command : String) (_fs : TempFile) : String × TempFile :=
  let fs := some ("@echo off\r\n" ++ pyStrip command)
  ("AttributeError: \x27GemilotCLI\x27 object has no attribute \x27output_area\x27", fs)

/-! ### Model Client -/

/-- Outcome of one model attempt inside `GemilotCLI.get_gemini_response`
(src lines 573-591): the `generate` call returned text, `future.result`
timed out after 30 seconds, or `generate` raised with the given
description. -/
inductive AttemptOutcome where
  | success (text : String)
  | timeoutErr
  | genFailure (msg : String)

/-- Whether an attempt outcome is a success. -/
def AttemptOutcome.isSuccess : AttemptOutcome → Bool
  | .success _ => true
  | _ => false

/-- `str(e)` of the exception that a failing attempt raises out of the
`with` block of `get_gemini_response` (src lines 588-591): timeouts become
the fixed timeout message, other failures are wrapped. -/
def attemptExcMsg : AttemptOutcome → String
  | .success _ => ""
  | .timeoutErr => "The request took too long to complete. Please try again."
  | .genFailure m => "Error getting response from Gemini: " ++ m

/-- Instrumented result of a model-client call: the returned value or the
message of the raised exception, the number of attempts actually made, and
the number of `time.sleep(retry_delay)` waits taken. -/
structure ModelCallResult where
  result : Except String String
  attemptsMade : Nat
  sleeps : Nat

/-- The `for retry in range(max_retries)` loop of
`GemilotCLI.get_gemini_response` (src lines 573-598), starting at iteration
`retry` with `fuel` iterations remaining (the fuel equals
`maxRetries - retry`; a call with fuel `0` corresponds to the exhausted
range, where the Python function would fall through).  On a failure at a
non-final iteration the loop prints a retry notice (not modelled), sleeps,
and continues; on the final iteration it raises
`Failed to get response after {max_retries} attempts: {str(e)}`. -/
def gemini_loop (attempt : Nat → AttemptOutcome) (maxRetries : Nat) :
    Nat → Nat → ModelCallResult
  | _, 0 => ⟨Except.error "", 0, 0⟩
  | retry, fuel + 1 =>
    match attempt retry with
    | .success t => ⟨Except.ok t, 1, 0⟩
    | .timeoutErr | .genFailure _ =>
      if retry < maxRetries - 1 then
        let r := gemini_loop attempt maxRetries (retry + 1) fuel
        ⟨r.result, r.attemptsMade + 1, r.sleeps + 1⟩
      else
        ⟨Except.error ("Failed to get response after " ++ toString maxRetries
            ++ " attempts: " ++ attemptExcMsg (attempt retry)), 1, 0⟩

/-- `GemilotCLI.get_gemini_response` (src lines 568-598):
`max_retries = 3`, `retry_delay = 2`. -/
def get_gemini_response (attempt : Nat → AttemptOutcome) : ModelCallResult :=
  gemini_loop attempt 3 0 3

/-- A Qt signal emitted by `GeminiWorker`. -/
inductive WorkerSignal where
  | finished (text : String)
  | error (msg : String)

/-- Instrumented result of `GeminiWorker.run`: emitted signals in order,
attempts made, sleeps taken. -/
structure WorkerRun where
  signals : List WorkerSignal
  attemptsMade : Nat
  sleeps : Nat

/-- The `while retries < self.max_retries` loop of `GeminiWorker.run`
(src lines 76-95), with `retries` the loop counter and `fuel` an upper
bound on the remaining iterations.  Each attempt either emits `finished`
and returns, or increments `retries` and, when retries remain, sleeps and
loops; after the last failure it emits
`Connection error after {retries} attempts: {last_error}` and the loop
guard ends the run. -/
def worker_loop (attempt : Nat → Except String String) (maxRetries : Nat) :
    Nat → Nat → WorkerRun
  | _, 0 => ⟨[], 0, 0⟩
  | retries, fuel + 1 =>
    if retries < maxRetries then
      match attempt retries with
      | .ok t => ⟨[WorkerSignal.finished t], 1, 0⟩
      | .error e =>
        if retries + 1 < maxRetries then
          let r := worker_loop attempt maxRetries (retries + 1) fuel
          ⟨r.signals, r.attemptsMade + 1, r.sleeps + 1⟩
        else
          ⟨[WorkerSignal.error ("Connection error after " ++ toString (retries + 1)
              ++ " attempts: " ++ e)], 1, 0⟩
    else ⟨[], 0, 0⟩

/-- `GeminiWorker.run` (src lines 76-95): `max_retries = 3`,
`retry_delay = 2`; the oracle gives each attempt's outcome, `.ok text` for
`response.text` and `.error (str e)` for a raised exception. -/
def geminiWorker_run (attempt : Nat → Except String String) : WorkerRun :=
  worker_loop attempt 3 0 3

/-! ### GUI front end (`GemilotGUI`) -/

/-- The f-string prompt template of `GemilotGUI.process_command`
(src lines 408-412), including the literal indentation of the
triple-quoted string. -/
def gui_prompt_template (command : String) : String :=
  "Convert the following request into Windows batch commands. \n        Only output the batch commands, nothing else. Each command should be on a new line.\n        If the request is not possible or unsafe, respond with \x27ERROR: [reason]\x27\n        \n        Request: " ++ command

/-- `GemilotGUI.process_command` (src lines 396-418): strip the input field;
on a blank result return immediately (no prompt, no worker); otherwise build
the prompt and start a `GeminiWorker` on it.  The returned value is the
prompt handed to the worker, `none` when no worker is started. -/
def process_command (inputText : String) : Option String :=
  let command := pyStrip inputText
  if command = "" then none
  else some (gui_prompt_template command)

/-- Result of one `GemilotGUI.handle_gemini_response` invocation: the bot
message bubbles added (in order), the temp-file state, and whether the
script runner was invoked. -/
structure GuiTurn where
  botMessages : List String
  fsState : TempFile
  interpInvoked : Bool

/-- `GemilotGUI.handle_gemini_response` (src lines 420-436): a reply
starting with `ERROR:` is shown with its first six characters removed and
the pipeline stops; otherwise the reply is sanitized, split into lines,
and passed to `execute_commands`, reporting success or the caught
exception's message. -/
def handle_gemini_response (response : String) (run : InterpRun) (fs : TempFile) :
    GuiTurn :=
  if "ERROR:".toList.isPrefixOf response.toList then
    ⟨[String.mk (response.toList.drop 6)], fs, false⟩
  else
    let cleaned := clean_gemini_response response
    let r := execute_commands (pySplitNl cleaned) run fs
    match r.1 with
    | .ok _ =>
      ⟨["Executing commands:\n" ++ cleaned, "Commands executed successfully!"], r.2, true⟩
    | .error e =>
      ⟨["Executing commands:\n" ++ cleaned, "Error executing commands: " ++ e], r.2, true⟩

/-! ### CLI front end (`GemilotCLI`) -/

/-- The f-string prompt template of `GemilotCLI.run` (src lines 688-692),
including the literal indentation of the triple-quoted string. -/
def cli_prompt_template (user_input : String) : String :=
  "Convert the following request into Windows batch commands. \n                Only output the batch commands, nothing else. Each command should be on a new line.\n                If the request is not possible or unsafe, respond with \x27ERROR: [reason]\x27\n                \n                Request: " ++ user_input

/-- Outcome of the `self.get_gemini_response(prompt)` call as observed by
`GemilotCLI.run`: either the returned text or the message of the raised
exception. -/
inductive ModelOutcome where
  | ok (text : String)
  | raised (msg : String)

/-- Console output of one CLI loop iteration, by source print site. -/
inductive Display where
  | goodbye
  | helpPanel
  | historyPanel (entries : List String)
  | errorLine (text : String)
  | outerErrorLine (text : String)
  | previewPanel (commands : List String)
  | successLine

/-- Observable result of one iteration of the `GemilotCLI.run` loop. -/
structure TurnResult where
  history : List String
  promptSent : Option String
  fsState : TempFile
  interpInvoked : Bool
  displayed : List Display
  fallbackOffered : Bool
  exitLoop : Bool

/-- The condition under which an input (already stripped) reaches the
model pipeline in `GemilotCLI.run`: it is none of the reserved inputs
`exit`, `help`, `history` (compared on the lowered text) and its lowered
text does not start with `local:`. -/
def isPipelineInput (u : String) : Bool :=
  decide (pyLower u ≠ "exit") && decide (pyLower u ≠ "help") &&
    decide (pyLower u ≠ "history") && !("local:".toList.isPrefixOf (pyLower u).toList)

/-- One iteration of the `GemilotCLI.run` loop (src lines 665-723) on the
raw line `raw` read from the prompt, given the current history, the outcome
`mo` of the model call (consulted only if one is made) and the interpreter
behaviour `run` (consulted only if the script runner is reached).
Reserved inputs dispatch to their handlers; a `local:` input is sliced
after the six-character prefix, stripped and passed to
`execute_local_command`, whose `AttributeError` is caught by the loop's
outer `except` (src line 722); otherwise the input is appended to
`command_history`, the prompt is built and the model is called; an `ERROR:`
reply is printed with its first six characters removed followed by the
fallback offer; any other reply is sanitized, previewed, written and
executed, printing the success line or the caught error followed by the
fallback offer. -/
def cliTurn (history : List String) (raw : String) (mo : ModelOutcome)
    (run : InterpRun) (fs : TempFile) : TurnResult :=
  let u := pyStrip raw
  if pyLower u = "exit" then
    ⟨history, none, fs, false, [Display.goodbye], false, true⟩
  else if pyLower u = "help" then
    ⟨history, none, fs, false, [Display.helpPanel], false, false⟩
  else if pyLower u = "history" then
    ⟨history, none, fs, false, [Display.historyPanel history], false, false⟩
  else if "local:".toList.isPrefixOf (pyLower u).toList then
    let local_command := pyStrip (String.mk (u.toList.drop 6))
    let r := execute_local_command local_command fs
    ⟨history, none, r.2, false, [Display.outerErrorLine r.1], false, false⟩
  else
    let history := history ++ [u]
    let prompt := cli_prompt_template u
    match mo with
    | .raised e =>
      ⟨history, some prompt, fs, false, [Display.errorLine e], true, false⟩
    | .ok response =>
      if "ERROR:".toList.isPrefixOf response.toList then
        ⟨history, some prompt, fs, false,
          [Display.errorLine (String.mk (response.toList.drop 6))], true, false⟩
      else
        let cleaned := clean_gemini_response response
        let commands := pySplitNl cleaned
        let r := execute_batch_file (create_batch_file commands fs) run
        match r.1 with
        | .ok _ =>
          ⟨history, some prompt, r.2, true,
            [Display.previewPanel commands, Display.successLine], false, false⟩
        | .error e =>
          ⟨history, some prompt, r.2, true,
            [Display.previewPanel commands, Display.errorLine e], true, false⟩

/-- Whether an `Except` value is a success. -/
def exceptIsOk : Except String String → Bool
  | .ok _ => true
  | .error _ => false

/-- The error description carried by a failed `Except` value. -/
def exceptErrMsg : Except String String → String
  | .ok _ => ""
  | .error e => e

/-! ### Helper lemmas -/

theorem splitNlL_ne_nil (cs : List Char) : splitNlL cs ≠ [] := by
  cases cs with
  | nil => simp [splitNlL]
  | cons c rest =>
    simp only [splitNlL]
    split
    · simp
    · split <;> simp

theorem joinNlL_splitNlL (cs : List Char) : joinNlL (splitNlL cs) = cs := by
  induction cs with
  | nil => rfl
  | cons c rest ih =>
    simp only [splitNlL]
    split
    · rename_i hc
      obtain ⟨r, rs, hr⟩ : ∃ r rs, splitNlL rest = r :: rs := by
        cases hsp : splitNlL rest with
        | nil => exact absurd hsp (splitNlL_ne_nil rest)
        | cons r rs => exact ⟨r, rs, rfl⟩
      rw [hr]
      rw [hr] at ih
      simp [joinNlL, ← ih, hc]
    · cases hsp : splitNlL rest with
      | nil => exact absurd hsp (splitNlL_ne_nil rest)
      | cons r rs =>
        rw [hsp] at ih
        cases rs with
        | nil => simp [joinNlL, ← ih]
        | cons r2 rs2 => simp [joinNlL, ← ih]

theorem removeIfExists_eq_none (fs : TempFile) : removeIfExists fs = none := by
  cases fs <;> rfl

theorem isSuccess_false_iff (a : AttemptOutcome) :
    a.isSuccess = false ↔ a = AttemptOutcome.timeoutErr ∨ ∃ m, a = AttemptOutcome.genFailure m := by
  cases a <;> simp [AttemptOutcome.isSuccess]

theorem exceptIsOk_false_iff (r : Except String String) :
    exceptIsOk r = false ↔ ∃ e, r = Except.error e := by
  cases r <;> simp [exceptIsOk]

theorem isPrefixOf_eq_false_iff (l1 l2 : List Char) :
    l1.isPrefixOf l2 = false ↔ ¬ l1 <+: l2 := by
  rw [← List.isPrefixOf_iff_prefix, Bool.not_eq_true]

/-- General shape of one CLI loop iteration: the input is appended to the
history, and a prompt is sent to the model, exactly when the stripped input
is not reserved and does not start with the `local:` prefix — for every
model outcome and interpreter behaviour. -/
theorem cliTurn_history_promptSent (history : List String) (raw : String)
    (mo : ModelOutcome) (run : InterpRun) (fs : TempFile) :
    (cliTurn history raw mo run fs).history
        = (if isPipelineInput (pyStrip raw) then history ++ [pyStrip raw] else history)
    ∧ (cliTurn history raw mo run fs).promptSent
        = (if isPipelineInput (pyStrip raw) then some (cli_prompt_template (pyStrip raw)) else none) := by
  unfold cliTurn
  constructor <;>
  · repeat' split <;>
      first
        | rfl
        | simp_all [isPipelineInput, isPrefixOf_eq_false_iff]
        | (split <;> (first | rfl | (split <;> rfl)))

theorem dropFences_id (lines : List (List Char))
    (h1 : startsWithFence (lines.headD []) = false)
    (h2 : pyStripL (lines.getLastD []) ≠ fence) :
    dropFences lines = lines := by
  by_cases hlen : 2 ≤ lines.length
  · simp only [dropFences, if_pos hlen, h1, Bool.false_eq_true, if_false, if_neg h2]
  · simp only [dropFences, if_neg hlen]

/-! ### Claims -/

/-- C6: on the raw text consisting exactly of a fence line, `commandA`,
`commandB`, and a closing fence line, `clean_gemini_response` returns
exactly the two command lines joined by a newline. -/
theorem clean_fenced_block_exact :
    clean_gemini_response "```\ncommandA\ncommandB\n```" = "commandA\ncommandB" := by
  decide

/-- C7 counterexample: the raw text `" x"` contains no line starting with a
code fence, yet `clean_gemini_response` does not return it unchanged — the
claimed identity on fence-free input fails because the function strips
leading/trailing whitespace first. -/
theorem clean_not_identity_on_unfenced :
    (∀ l ∈ splitNlL (String.toList " x"), startsWithFence l = false) ∧
      clean_gemini_response " x" ≠ " x" := by
  decide

/-- C7 (amended): for raw text whose stripped form has no first line
starting with a code fence and no last line stripping to exactly a fence,
`clean_gemini_response` returns the Python-stripped input (hence it is the
identity only on such texts that carry no leading or trailing
whitespace). -/
theorem clean_on_unfenced_strips (s : String)
    (h1 : startsWithFence ((splitNlL (pyStripL s.toList)).headD []) = false)
    (h2 : pyStripL ((splitNlL (pyStripL s.toList)).getLastD []) ≠ fence) :
    clean_gemini_response s = pyStrip s := by
  have hdrop : dropFences (splitNlL (pyStripL s.toList)) = splitNlL (pyStripL s.toList) :=
    dropFences_id _ h1 h2
  have hlist : cleanL s.toList = pyStripL s.toList := by
    unfold cleanL
    rw [hdrop, joinNlL_splitNlL]
  simpa [clean_gemini_response, pyStrip] using congrArg String.mk hlist

/-- C7 witness: the amended statement at the fence-free, already-stripped
input `"mkdir demo"`. -/
theorem clean_on_unfenced_strips_witness :
    clean_gemini_response "mkdir demo" = pyStrip "mkdir demo" :=
  clean_on_unfenced_strips "mkdir demo" (by decide) (by decide)

/-- C3: when the interpreter runs, both script-execution operations fail
exactly when the captured stderr is non-empty — the raised error carries
the stderr text — and succeed (with the captured stdout, for the CLI
operation) whenever stderr is empty, for every exit code. -/
theorem script_failure_iff_stderr (fs : TempFile) (stdout stderr : String)
    (code : Int) (cmds : List String) :
    execute_batch_file fs (InterpRun.ran stdout stderr code)
        = ((if stderr = "" then Except.ok stdout
            else Except.error ("Error executing batch file: " ++ stderr)), none)
    ∧ execute_commands cmds (InterpRun.ran stdout stderr code) fs
        = ((if stderr = "" then Except.ok () else Except.error stderr), none) := by
  constructor
  · by_cases h : stderr = "" <;>
      simp [execute_batch_file, removeIfExists_eq_none, h]
  · by_cases h : stderr = "" <;>
      simp [execute_commands, removeIfExists_eq_none, h]

/-- C1: after `execute_commands` and `execute_batch_file` return or raise,
the temporary file is gone under every interpreter behaviour; but
`execute_local_command` always leaves `temp_commands.bat` on disk (it
raises `AttributeError` on the missing `output_area` attribute after the
write, and neither it nor its `except` handler deletes the file) — the
claim fails on the local-bypass operation. -/
theorem temp_file_lifecycle (cmds : List String) (run : InterpRun)
    (fs1 fs2 fs3 : TempFile) (command : String) :
    (execute_commands cmds run fs1).2 = none
    ∧ (execute_batch_file fs2 run).2 = none
    ∧ (execute_local_command command fs3).2 = some ("@echo off\r\n" ++ pyStrip command) := by
  refine ⟨?_, ?_, rfl⟩ <;>
    cases run <;>
      simp only [execute_commands, execute_batch_file, removeIfExists_eq_none] <;>
      first
        | rfl
        | (split <;> rfl)

/-- C5: on the CLI input `"local: mkdir test_folder"` no prompt is ever
sent to the Model Client and the literal trimmed command is written as the
sole command line of the batch script — but the interpreter is never
invoked for it: `execute_local_command` raises `AttributeError` before
reaching `subprocess.Popen`, so the command is not executed and the turn
surfaces the error. -/
theorem local_bypass_turn (history : List String) (mo : ModelOutcome)
    (run : InterpRun) (fs : TempFile) :
    (cliTurn history "local: mkdir test_folder" mo run fs).promptSent = none
    ∧ (cliTurn history "local: mkdir test_folder" mo run fs).fsState
        = some "@echo off\r\nmkdir test_folder"
    ∧ (cliTurn history "local: mkdir test_folder" mo run fs).interpInvoked = false
    ∧ (cliTurn history "local: mkdir test_folder" mo run fs).history = history :=
  ⟨rfl, rfl, rfl, rfl⟩

/-- C4: a model reply starting with `ERROR:` stops the pipeline before the
Script Runner in both front ends — no batch file is created or executed for
that turn — and the reply is displayed with its 6-character `ERROR:` prefix
stripped (the reply is exactly that prefix followed by the displayed
text). -/
theorem error_reply_stops_pipeline (response : String) (run : InterpRun)
    (fs fs2 : TempFile) (history : List String) (raw : String)
    (hresp : "ERROR:".toList.isPrefixOf response.toList = true)
    (hinput : isPipelineInput (pyStrip raw) = true) :
    handle_gemini_response response run fs
        = ⟨[String.mk (response.toList.drop 6)], fs, false⟩
    ∧ cliTurn history raw (ModelOutcome.ok response) run fs2
        = ⟨history ++ [pyStrip raw], some (cli_prompt_template (pyStrip raw)), fs2, false,
            [Display.errorLine (String.mk (response.toList.drop 6))], true, false⟩
    ∧ response.toList = "ERROR:".toList ++ response.toList.drop 6 := by
  have hpre : "ERROR:".toList <+: response.toList :=
    List.isPrefixOf_iff_prefix.mp hresp
  simp only [isPipelineInput, Bool.and_eq_true, decide_eq_true_eq,
    Bool.not_eq_true', isPrefixOf_eq_false_iff] at hinput
  obtain ⟨⟨⟨h1, h2⟩, h3⟩, h4⟩ := hinput
  have hpre2 := hpre
  simp at hpre2 h4
  refine ⟨?_, ?_, ?_⟩
  · simp [handle_gemini_response, hpre2]
  · unfold cliTurn
    simp [h1, h2, h3, h4, hpre2]
  · obtain ⟨t, ht⟩ := hpre
    have h6 : ("ERROR:".toList).length = 6 := rfl
    rw [← ht, ← h6, List.drop_left]

/-- C4 witness: the theorem at the reply
`"ERROR: deleting system files is unsafe"` and the input
`"delete system files"`. -/
theorem error_reply_stops_pipeline_witness :
    handle_gemini_response "ERROR: deleting system files is unsafe"
        (InterpRun.ran "" "" 0) none
        = ⟨[String.mk (("ERROR: deleting system files is unsafe" : String).toList.drop 6)],
            none, false⟩
    ∧ cliTurn [] "delete system files"
        (ModelOutcome.ok "ERROR: deleting system files is unsafe")
        (InterpRun.ran "" "" 0) none
        = ⟨["delete system files"], some (cli_prompt_template "delete system files"),
            none, false,
            [Display.errorLine (String.mk
              (("ERROR: deleting system files is unsafe" : String).toList.drop 6))],
            true, false⟩
    ∧ ("ERROR: deleting system files is unsafe" : String).toList
        = "ERROR:".toList
          ++ ("ERROR: deleting system files is unsafe" : String).toList.drop 6 :=
  error_reply_stops_pipeline "ERROR: deleting system files is unsafe"
    (InterpRun.ran "" "" 0) none none [] "delete system files" (by decide) (by decide)

/-- C8 counterexample: in the CLI loop, the empty input is NOT a no-op — it
passes every reserved-input check, is appended to the history, and a prompt
embedding the empty request is sent to the Model Client. -/
theorem cli_blank_input_reaches_model :
    (cliTurn [] "" (ModelOutcome.raised "boom") (InterpRun.ran "" "" 0) none).promptSent
        = some (cli_prompt_template "")
    ∧ (cliTurn [] "" (ModelOutcome.raised "boom") (InterpRun.ran "" "" 0) none).history
        = [""] :=
  ⟨rfl, rfl⟩

/-- C8 (amended): blank or empty input is a no-op only in the GUI front end
(`process_command` returns before building a prompt or starting a worker);
in the CLI loop a blank input is appended to `command_history` as the empty
string and a prompt embedding the empty request is sent to the Model
Client. -/
theorem blank_input_policy (raw : String) (hblank : pyStrip raw = "")
    (history : List String) (mo : ModelOutcome) (run : InterpRun) (fs : TempFile) :
    process_command raw = none
    ∧ (cliTurn history raw mo run fs).history = history ++ [""]
    ∧ (cliTurn history raw mo run fs).promptSent = some (cli_prompt_template "") := by
  have hp : isPipelineInput "" = true := by decide
  have h := cliTurn_history_promptSent history raw mo run fs
  rw [hblank] at h
  refine ⟨?_, ?_, ?_⟩
  · simp [process_command, hblank]
  · rw [h.1, if_pos hp]
  · rw [h.2, if_pos hp]

/-- C8 witness: the amended statement at the whitespace-only input
`"   "`. -/
theorem blank_input_policy_witness :
    process_command "   " = none
    ∧ (cliTurn ["prior"] "   " (ModelOutcome.raised "boom")
        (InterpRun.ran "" "" 0) none).history = ["prior"] ++ [""]
    ∧ (cliTurn ["prior"] "   " (ModelOutcome.raised "boom")
        (InterpRun.ran "" "" 0) none).promptSent = some (cli_prompt_template "") :=
  blank_input_policy "   " (by decide) ["prior"] (ModelOutcome.raised "boom")
    (InterpRun.ran "" "" 0) none

/-- C10: in the CLI session loop, the input line (stripped) is appended to
`command_history` exactly when it is none of the case-insensitively reserved
inputs `exit`, `help`, `history` and does not (case-insensitively) start
with `local:`; the resulting history extends the old one by at most that
single entry — never removing or reordering entries — and this holds for
every model outcome and interpreter behaviour, so inputs whose model call or
execution later fails are still recorded exactly once; a prompt is sent to
the model exactly for the appended inputs, so the append precedes the model
call. -/
theorem cli_history_append_iff (history : List String) (raw : String)
    (mo : ModelOutcome) (run : InterpRun) (fs : TempFile) :
    (cliTurn history raw mo run fs).history
        = (if isPipelineInput (pyStrip raw) then history ++ [pyStrip raw] else history)
    ∧ (cliTurn history raw mo run fs).promptSent
        = (if isPipelineInput (pyStrip raw) then some (cli_prompt_template (pyStrip raw)) else none) :=
  cliTurn_history_promptSent history raw mo run fs

/-- C2: when every attempt fails, `get_gemini_response` makes exactly
3 = `max_retries` attempts (sleeping between consecutive ones) and raises a
single failure naming the attempt count and the last underlying error
description, and `GeminiWorker.run` makes exactly 3 attempts and emits a
single `error` signal naming the attempt count and the last error — neither
makes any further attempt. -/
theorem model_client_exhausts_retries
    (attempt : Nat → AttemptOutcome) (wattempt : Nat → Except String String)
    (hfail : ∀ i, i < 3 → (attempt i).isSuccess = false)
    (hwfail : ∀ i, i < 3 → exceptIsOk (wattempt i) = false) :
    get_gemini_response attempt
        = ⟨Except.error ("Failed to get response after 3 attempts: "
            ++ attemptExcMsg (attempt 2)), 3, 2⟩
    ∧ geminiWorker_run wattempt
        = ⟨[WorkerSignal.error ("Connection error after 3 attempts: "
            ++ exceptErrMsg (wattempt 2))], 3, 2⟩ := by
  have hmsg : "Failed to get response after " ++ toString (3 : Nat) ++ " attempts: "
      = "Failed to get response after 3 attempts: " := by decide
  have hwmsg : "Connection error after " ++ toString (3 : Nat) ++ " attempts: "
      = "Connection error after 3 attempts: " := by decide
  constructor
  · rcases (isSuccess_false_iff _).mp (hfail 0 (by omega)) with h0 | ⟨m0, h0⟩ <;>
    rcases (isSuccess_false_iff _).mp (hfail 1 (by omega)) with h1 | ⟨m1, h1⟩ <;>
    rcases (isSuccess_false_iff _).mp (hfail 2 (by omega)) with h2 | ⟨m2, h2⟩ <;>
      simp [get_gemini_response, gemini_loop, h0, h1, h2, attemptExcMsg,
        ← hmsg, String.append_assoc]
  · obtain ⟨e0, h0⟩ := (exceptIsOk_false_iff _).mp (hwfail 0 (by omega))
    obtain ⟨e1, h1⟩ := (exceptIsOk_false_iff _).mp (hwfail 1 (by omega))
    obtain ⟨e2, h2⟩ := (exceptIsOk_false_iff _).mp (hwfail 2 (by omega))
    simp [geminiWorker_run, worker_loop, h0, h1, h2, exceptErrMsg,
      ← hwmsg, String.append_assoc]

/-- C2 witness: the theorem at an oracle whose every attempt times out
(CLI) and an oracle whose every attempt raises `boom` (worker). -/
theorem model_client_exhausts_retries_witness :
    get_gemini_response (fun _ => AttemptOutcome.timeoutErr)
        = ⟨Except.error ("Failed to get response after 3 attempts: "
            ++ attemptExcMsg ((fun _ => AttemptOutcome.timeoutErr) 2)), 3, 2⟩
    ∧ geminiWorker_run (fun _ => Except.error "boom")
        = ⟨[WorkerSignal.error ("Connection error after 3 attempts: "
            ++ exceptErrMsg ((fun _ => (Except.error "boom" : Except String String)) 2))], 3, 2⟩ :=
  model_client_exhausts_retries (fun _ => AttemptOutcome.timeoutErr)
    (fun _ => Except.error "boom") (fun _ _ => rfl) (fun _ _ => rfl)

/-- C9: when the first attempt succeeds, both `get_gemini_response` and
`GeminiWorker.run` return/emit the model's text payload unmodified, with
exactly one attempt made, zero retries and no retry delay taken. -/
theorem model_client_first_success (attempt : Nat → AttemptOutcome)
    (wattempt : Nat → Except String String) (t tw : String)
    (h : attempt 0 = AttemptOutcome.success t) (hw : wattempt 0 = Except.ok tw) :
    get_gemini_response attempt = ⟨Except.ok t, 1, 0⟩
    ∧ geminiWorker_run wattempt = ⟨[WorkerSignal.finished tw], 1, 0⟩ := by
  constructor
  · simp [get_gemini_response, gemini_loop, h]
  · simp [geminiWorker_run, worker_loop, hw]

/-- C9 witness: the theorem at oracles that succeed immediately with
`"mkdir demo"`. -/
theorem model_client_first_success_witness :
    get_gemini_response (fun _ => AttemptOutcome.success "mkdir demo")
        = ⟨Except.ok "mkdir demo", 1, 0⟩
    ∧ geminiWorker_run (fun _ => Except.ok "mkdir demo")
        = ⟨[WorkerSignal.finished "mkdir demo"], 1, 0⟩ :=
  model_client_first_success (fun _ => AttemptOutcome.success "mkdir demo")
    (fun _ => Except.ok "mkdir demo") "mkdir demo" "mkdir demo" rfl rfl

end Gemilot
